import Mathlib

/-!
Verification of the Windows service lifecycle controller
(`src/application/service/winService.cpp`, namespace `wotan`).

The development shallowly embeds the service control state machine:

* `SERVICE_STATUS` mirrors the Win32 `SERVICE_STATUS` structure (fields used
  by the code), with `DWORD` values modelled as `Nat` and arithmetic reduced
  `% 2^32` where overflow matters.
* `winService` mirrors the instance fields of the C++ class: `name_`,
  `statusHandle_` and `status_`.
* `SvcEnv` is the explicit process state threaded through the stateful code:
  the `winService` object, the function-local `static DWORD dwCheckPoint`
  of `setServiceStatus` (initialised to 1 once per process), the sequence of
  status reports delivered to the SCM via `::SetServiceStatus`, the event-log
  entries produced by `ReportEvent`, and the sequence of lifecycle callback
  invocations.
* C++ exceptions are embedded explicitly: each function returns
  `SvcEnv × Option CppExc`, where `none` means the function returned
  normally and `some exc` means exception `exc` escapes it.  The
  `try { … } catch (DWORD) { … } catch (...) { … }` blocks of the transition
  functions are embedded as a match on the body's escaping exception.
-/

/-! ## Win32 constants (values from the Windows SDK headers) -/

def SERVICE_STOPPED : Nat := 1
def SERVICE_START_PENDING : Nat := 2
def SERVICE_STOP_PENDING : Nat := 3
def SERVICE_RUNNING : Nat := 4
def SERVICE_CONTINUE_PENDING : Nat := 5
def SERVICE_PAUSE_PENDING : Nat := 6
def SERVICE_PAUSED : Nat := 7

def SERVICE_WIN32_OWN_PROCESS : Nat := 16

def SERVICE_ACCEPT_STOP : Nat := 1
def SERVICE_ACCEPT_PAUSE_CONTINUE : Nat := 2
def SERVICE_ACCEPT_SHUTDOWN : Nat := 4

def SERVICE_CONTROL_STOP : Nat := 1
def SERVICE_CONTROL_PAUSE : Nat := 2
def SERVICE_CONTROL_CONTINUE : Nat := 3
def SERVICE_CONTROL_INTERROGATE : Nat := 4
def SERVICE_CONTROL_SHUTDOWN : Nat := 5

def NO_ERROR : Nat := 0

def EVENTLOG_ERROR_TYPE : Nat := 1

/-- Modulus of a `DWORD`: a `DWORD` is a 32-bit unsigned integer. -/
def DWORD_MOD : Nat := 2 ^ 32

/-! ## Data model -/

/-- The fields of the Win32 `SERVICE_STATUS` structure that the code uses. -/
structure SERVICE_STATUS where
  dwServiceType : Nat
  dwCurrentState : Nat
  dwControlsAccepted : Nat
  dwWin32ExitCode : Nat
  dwServiceSpecificExitCode : Nat
  dwCheckPoint : Nat
  dwWaitHint : Nat
deriving Repr, DecidableEq

/-- Instance fields of the C++ class `wotan::winService`.  The status handle
is an opaque pointer; only nullness is observable, so it is an `Option Nat`
(`none` = `NULL`). -/
structure winService where
  name_ : String
  statusHandle_ : Option Nat
  status_ : SERVICE_STATUS
deriving Repr, DecidableEq

/-- One entry written to the Application event log by
`winService::writeEventLogEntry` (the two strings handed to `ReportEvent`
plus the event type). -/
structure LogEntry where
  source : String
  message : String
  wType : Nat
deriving Repr, DecidableEq

/-- The explicit process state threaded through the stateful C++ code. -/
structure SvcEnv where
  /-- The singleton `winService` instance (`winService::service_`). -/
  svc : winService
  /-- The function-local `static DWORD dwCheckPoint = 1;` inside
  `winService::setServiceStatus`: initialised once per process. -/
  dwCheckPointStatic : Nat
  /-- The sequence of `SERVICE_STATUS` values handed to `::SetServiceStatus`,
  oldest first: the reports the SCM has observed. -/
  reports : List SERVICE_STATUS
  /-- The sequence of event-log entries, oldest first. -/
  log : List LogEntry
  /-- The names of the lifecycle callbacks invoked so far, in order. -/
  calls : List String
deriving Repr, DecidableEq

/-- A C++ exception as thrown by a lifecycle callback: either a thrown
`DWORD` (caught by `catch (DWORD dwError)`) or anything else
(caught by `catch (...)`). -/
inductive CppExc where
  | dword (code : Nat)
  | other
deriving Repr, DecidableEq

/-- Outcome of a user-supplied lifecycle callback (`onStart`, `onStop`,
`onPause`, `onContinue`, `onShutdown`): normal completion, a thrown `DWORD`
error code, or any other thrown failure. -/
inductive CallbackOutcome where
  | ok
  | codedFailure (code : Nat)
  | otherFailure
deriving Repr, DecidableEq

/-! ## Helper functions of the class -/

/-- Hexadecimal digit, lowercase, as produced by the `%x` printf family. -/
def hexDigitStr (n : Nat) : String :=
  if n = 0 then "0" else if n = 1 then "1" else if n = 2 then "2"
  else if n = 3 then "3" else if n = 4 then "4" else if n = 5 then "5"
  else if n = 6 then "6" else if n = 7 then "7" else if n = 8 then "8"
  else if n = 9 then "9" else if n = 10 then "a" else if n = 11 then "b"
  else if n = 12 then "c" else if n = 13 then "d" else if n = 14 then "e"
  else "f"

/-- Rendering of a `DWORD` per `%08lx`: eight lowercase hex digits. -/
def hex8 (n : Nat) : String :=
  String.join ((List.range 8).map (fun i => hexDigitStr (n / 16 ^ (7 - i) % 16)))

/-- Embeds `winService::writeEventLogEntry(PWSTR, WORD)`: reports the event
`{name_, message}` with the given type to the Application event log.
(`RegisterEventSource` is modelled as succeeding; its failure branch only
skips the logging.) -/
def writeEventLogEntry (e : SvcEnv) (pszMessage : String) (wType : Nat) : SvcEnv :=
  { e with log := e.log ++ [{ source := e.svc.name_, message := pszMessage, wType := wType }] }

/-- The message built by `StringCchPrintf(szMessage, …, "%s failed w/err 0x%08lx", …)`. -/
def errorLogMessage (pszFunction : String) (dwError : Nat) : String :=
  pszFunction ++ " failed w/err 0x" ++ hex8 dwError

/-- Embeds `winService::writeErrorLogEntry(PWSTR, DWORD)`. -/
def writeErrorLogEntry (e : SvcEnv) (pszFunction : String) (dwError : Nat) : SvcEnv :=
  writeEventLogEntry e (errorLogMessage pszFunction dwError) EVENTLOG_ERROR_TYPE

/-- Embeds `winService::setServiceStatus(DWORD, DWORD, DWORD)`: fills in the
`SERVICE_STATUS` structure and reports it to the SCM.  The checkpoint field
is `0` when the new state is `SERVICE_RUNNING` or `SERVICE_STOPPED`, and
otherwise the post-incremented static counter (`dwCheckPoint++`, a `DWORD`,
hence the `% DWORD_MOD`).

Modelled from the spec: the declaration of this member (in
`winService.hpp`, which is not under `src/`) supplies the default arguments
`dwWin32ExitCode = NO_ERROR` and `dwWaitHint = 0` (spec section 4.1:
`report(handle, state, exitCode=0, waitHintMs=0)`); call sites below pass
those defaults explicitly. -/
def setServiceStatus (e : SvcEnv) (dwCurrentState dwWin32ExitCode dwWaitHint : Nat) : SvcEnv :=
  let reset := dwCurrentState = SERVICE_RUNNING ∨ dwCurrentState = SERVICE_STOPPED
  let st : SERVICE_STATUS :=
    { e.svc.status_ with
      dwCurrentState := dwCurrentState
      dwWin32ExitCode := dwWin32ExitCode
      dwWaitHint := dwWaitHint
      dwCheckPoint := if reset then 0 else e.dwCheckPointStatic }
  { e with
    svc := { e.svc with status_ := st }
    dwCheckPointStatic :=
      if reset then e.dwCheckPointStatic else (e.dwCheckPointStatic + 1) % DWORD_MOD
    reports := e.reports ++ [st] }

/-! ## Constructor -/

/-- Embeds `winService::winService(LPSTR, BOOL, BOOL, BOOL)`.  A `NULL` service
name (modelled as `none`) is replaced by the empty string; the accepted
controls mask is accumulated with bitwise or exactly as the constructor
does. -/
def winService.construct (pszServiceName : Option String)
    (fCanStop fCanShutdown fCanPauseContinue : Bool) : winService :=
  let dwControlsAccepted0 : Nat := 0
  let dwControlsAccepted1 :=
    if fCanStop then dwControlsAccepted0 ||| SERVICE_ACCEPT_STOP else dwControlsAccepted0
  let dwControlsAccepted2 :=
    if fCanShutdown then dwControlsAccepted1 ||| SERVICE_ACCEPT_SHUTDOWN else dwControlsAccepted1
  let dwControlsAccepted3 :=
    if fCanPauseContinue then dwControlsAccepted2 ||| SERVICE_ACCEPT_PAUSE_CONTINUE
    else dwControlsAccepted2
  { name_ := match pszServiceName with | none => "" | some s => s
    statusHandle_ := none
    status_ :=
      { dwServiceType := SERVICE_WIN32_OWN_PROCESS
        dwCurrentState := SERVICE_START_PENDING
        dwControlsAccepted := dwControlsAccepted3
        dwWin32ExitCode := NO_ERROR
        dwServiceSpecificExitCode := 0
        dwCheckPoint := 0
        dwWaitHint := 0 } }

/-- Fresh process state: the constructed singleton, the static checkpoint
counter at its initialiser value 1, and no reports, log entries or callback
invocations yet. -/
def initEnv (pszServiceName : Option String)
    (fCanStop fCanShutdown fCanPauseContinue : Bool) : SvcEnv :=
  { svc := winService.construct pszServiceName fCanStop fCanShutdown fCanPauseContinue
    dwCheckPointStatic := 1
    reports := []
    log := []
    calls := [] }

/-! ## Lifecycle transitions

Each C++ transition is a `void` member whose body sits inside
`try { … } catch (DWORD) { … } catch (...) { … }` (except `shutdown`, whose
`catch` blocks only log).  The body is embedded as a function returning the
state reached together with the exception escaping the `try` block, and the
transition matches on that exception exactly as the `catch` clauses do. -/

/-- Invocation of a user lifecycle callback: records the invocation and
yields the exception the callback throws, if any. -/
def invokeCallback (name : String) (out : CallbackOutcome) (e : SvcEnv) :
    SvcEnv × Option CppExc :=
  let e1 := { e with calls := e.calls ++ [name] }
  match out with
  | .ok => (e1, none)
  | .codedFailure c => (e1, some (.dword c))
  | .otherFailure => (e1, some .other)

/-- Body of the `try` block of `winService::start`. -/
def startBody (dwArgc : Nat) (pszArgv : List String) (out : CallbackOutcome)
    (e : SvcEnv) : SvcEnv × Option CppExc :=
  let _ := dwArgc
  let _ := pszArgv
  let e1 := setServiceStatus e SERVICE_START_PENDING NO_ERROR 0
  match invokeCallback "onStart" out e1 with
  | (e2, none) => (setServiceStatus e2 SERVICE_RUNNING NO_ERROR 0, none)
  | (e2, some exc) => (e2, some exc)

/-- Embeds `winService::start(DWORD, LPSTR*)`: pending report, `onStart`, running
report; a thrown `DWORD` is logged and the service is reported stopped with
that code as exit code; any other failure is logged and the service is
reported stopped. -/
def start (dwArgc : Nat) (pszArgv : List String) (out : CallbackOutcome)
    (e : SvcEnv) : SvcEnv × Option CppExc :=
  match startBody dwArgc pszArgv out e with
  | (e1, none) => (e1, none)
  | (e1, some (.dword dwError)) =>
      let e2 := writeErrorLogEntry e1 "Service Start" dwError
      (setServiceStatus e2 SERVICE_STOPPED dwError 0, none)
  | (e1, some .other) =>
      let e2 := writeEventLogEntry e1 "Service failed to start." EVENTLOG_ERROR_TYPE
      (setServiceStatus e2 SERVICE_STOPPED NO_ERROR 0, none)

/-- Body of the `try` block of `winService::stop`. -/
def stopBody (out : CallbackOutcome) (e : SvcEnv) : SvcEnv × Option CppExc :=
  let e1 := setServiceStatus e SERVICE_STOP_PENDING NO_ERROR 0
  match invokeCallback "onStop" out e1 with
  | (e2, none) => (setServiceStatus e2 SERVICE_STOPPED NO_ERROR 0, none)
  | (e2, some exc) => (e2, some exc)

/-- Embeds `winService::stop()`: captures `dwOriginalState = status_.dwCurrentState`
before the `try` block; on either failure kind the failure is logged and the
original state is reported again. -/
def stop (out : CallbackOutcome) (e : SvcEnv) : SvcEnv × Option CppExc :=
  let dwOriginalState := e.svc.status_.dwCurrentState
  match stopBody out e with
  | (e1, none) => (e1, none)
  | (e1, some (.dword dwError)) =>
      let e2 := writeErrorLogEntry e1 "Service Stop" dwError
      (setServiceStatus e2 dwOriginalState NO_ERROR 0, none)
  | (e1, some .other) =>
      let e2 := writeEventLogEntry e1 "Service failed to stop." EVENTLOG_ERROR_TYPE
      (setServiceStatus e2 dwOriginalState NO_ERROR 0, none)

/-- Body of the `try` block of `winService::pause`. -/
def pauseBody (out : CallbackOutcome) (e : SvcEnv) : SvcEnv × Option CppExc :=
  let e1 := setServiceStatus e SERVICE_PAUSE_PENDING NO_ERROR 0
  match invokeCallback "onPause" out e1 with
  | (e2, none) => (setServiceStatus e2 SERVICE_PAUSED NO_ERROR 0, none)
  | (e2, some exc) => (e2, some exc)

/-- Embeds `winService::pause()`: on either failure kind the failure is logged and
`SERVICE_RUNNING` is reported. -/
def pause (out : CallbackOutcome) (e : SvcEnv) : SvcEnv × Option CppExc :=
  match pauseBody out e with
  | (e1, none) => (e1, none)
  | (e1, some (.dword dwError)) =>
      let e2 := writeErrorLogEntry e1 "Service Pause" dwError
      (setServiceStatus e2 SERVICE_RUNNING NO_ERROR 0, none)
  | (e1, some .other) =>
      let e2 := writeEventLogEntry e1 "Service failed to pause." EVENTLOG_ERROR_TYPE
      (setServiceStatus e2 SERVICE_RUNNING NO_ERROR 0, none)

/-- Body of the `try` block of `winService::_continue`. -/
def continueBody (out : CallbackOutcome) (e : SvcEnv) : SvcEnv × Option CppExc :=
  let e1 := setServiceStatus e SERVICE_CONTINUE_PENDING NO_ERROR 0
  match invokeCallback "onContinue" out e1 with
  | (e2, none) => (setServiceStatus e2 SERVICE_RUNNING NO_ERROR 0, none)
  | (e2, some exc) => (e2, some exc)

/-- Embeds `winService::_continue()`: on either failure kind the failure is logged
and `SERVICE_PAUSED` is reported. -/
def _continue (out : CallbackOutcome) (e : SvcEnv) : SvcEnv × Option CppExc :=
  match continueBody out e with
  | (e1, none) => (e1, none)
  | (e1, some (.dword dwError)) =>
      let e2 := writeErrorLogEntry e1 "Service Continue" dwError
      (setServiceStatus e2 SERVICE_PAUSED NO_ERROR 0, none)
  | (e1, some .other) =>
      let e2 := writeEventLogEntry e1 "Service failed to resume." EVENTLOG_ERROR_TYPE
      (setServiceStatus e2 SERVICE_PAUSED NO_ERROR 0, none)

/-- Body of the `try` block of `winService::shutdown`: no pending report;
`onShutdown`, then the stopped report. -/
def shutdownBody (out : CallbackOutcome) (e : SvcEnv) : SvcEnv × Option CppExc :=
  match invokeCallback "onShutdown" out e with
  | (e1, none) => (setServiceStatus e1 SERVICE_STOPPED NO_ERROR 0, none)
  | (e1, some exc) => (e1, some exc)

/-- Embeds `winService::shutdown()`: on either failure kind the failure is only
logged; no further report is issued. -/
def shutdown (out : CallbackOutcome) (e : SvcEnv) : SvcEnv × Option CppExc :=
  match shutdownBody out e with
  | (e1, none) => (e1, none)
  | (e1, some (.dword dwError)) =>
      (writeErrorLogEntry e1 "Service Shutdown" dwError, none)
  | (e1, some .other) =>
      (writeEventLogEntry e1 "Service failed to shut down." EVENTLOG_ERROR_TYPE, none)

/-- Embeds `winService::ServiceCtrlHandler(DWORD)`: the `switch` that dispatches a
control code from the SCM.  `SERVICE_CONTROL_INTERROGATE` and the `default`
case are bare `break;` statements: nothing happens. -/
def ServiceCtrlHandler (dwCtrl : Nat) (out : CallbackOutcome) (e : SvcEnv) :
    SvcEnv × Option CppExc :=
  if dwCtrl = SERVICE_CONTROL_STOP then stop out e
  else if dwCtrl = SERVICE_CONTROL_PAUSE then pause out e
  else if dwCtrl = SERVICE_CONTROL_CONTINUE then _continue out e
  else if dwCtrl = SERVICE_CONTROL_SHUTDOWN then shutdown out e
  else if dwCtrl = SERVICE_CONTROL_INTERROGATE then (e, none)
  else (e, none)

/-! ## Observables -/

/-- State carried by the last report the SCM observed, if any. -/
def lastReportedState (e : SvcEnv) : Option Nat :=
  e.reports.getLast?.map (fun r => r.dwCurrentState)

/-- Exit code carried by the last report the SCM observed, if any. -/
def lastReportedExitCode (e : SvcEnv) : Option Nat :=
  e.reports.getLast?.map (fun r => r.dwWin32ExitCode)

/-- The `*Pending` states of the service state machine. -/
def isPending (s : Nat) : Bool :=
  s = SERVICE_START_PENDING || s = SERVICE_STOP_PENDING ||
  s = SERVICE_CONTINUE_PENDING || s = SERVICE_PAUSE_PENDING

/-! ## The scenario of spec section 8

Capabilities `{canStop := true, canPauseContinue := true}`, then
Start(success), Pause(success), Continue(structured failure, code 5). -/

/-- The controller of the section-8 scenario, freshly constructed. -/
def scenarioEnv0 : SvcEnv := initEnv (some "wotan") true false true

/-- Process state after Start(success), Pause(success),
Continue(failure with structured code 5). -/
def scenarioEnv : SvcEnv :=
  (_continue (.codedFailure 5)
    ((pause .ok ((start 0 [] .ok scenarioEnv0).1)).1)).1

/-- The last element of a list extended by one element. -/
theorem getLast?_snoc {α : Type} (l : List α) (a : α) : (l ++ [a]).getLast? = some a := by
  rw [List.getLast?_append_cons]; rfl


/-- Checkpoint carried by the last report the SCM observed, if any. -/
def lastReportedCheckPoint (e : SvcEnv) : Option Nat :=
  e.reports.getLast?.map (fun r => r.dwCheckPoint)

/-- C1: a failing Stop, Pause or Continue callback (structured or
unstructured) makes the final status report restore exactly the state that
was current immediately before the pending report: Stop reports the state
captured before `SERVICE_STOP_PENDING` was reported, Pause reports
`SERVICE_RUNNING`, Continue reports `SERVICE_PAUSED`. -/
theorem C1_failure_restores_prior_state (e : SvcEnv) (c : Nat) :
    lastReportedState (stop (.codedFailure c) e).1 = some e.svc.status_.dwCurrentState ∧
    lastReportedState (stop .otherFailure e).1 = some e.svc.status_.dwCurrentState ∧
    lastReportedState (pause (.codedFailure c) e).1 = some SERVICE_RUNNING ∧
    lastReportedState (pause .otherFailure e).1 = some SERVICE_RUNNING ∧
    lastReportedState (_continue (.codedFailure c) e).1 = some SERVICE_PAUSED ∧
    lastReportedState (_continue .otherFailure e).1 = some SERVICE_PAUSED := by
  refine ⟨?_, ?_, ?_, ?_, ?_, ?_⟩ <;>
    simp [stop, stopBody, pause, pauseBody, _continue, continueBody, invokeCallback,
      setServiceStatus, writeErrorLogEntry, writeEventLogEntry, lastReportedState,
      getLast?_snoc]

/-- C3: every transition returns normally for every callback outcome — no
callback failure escapes `start`, `stop`, `pause`, `_continue` or
`shutdown` — and on either failure kind the failure is logged (exactly one
event-log entry is appended inside the transition). -/
theorem C3_failures_contained (e : SvcEnv) (out : CallbackOutcome) (c dwArgc : Nat)
    (argv : List String) :
    (start dwArgc argv out e).2 = none ∧
    (stop out e).2 = none ∧
    (pause out e).2 = none ∧
    (_continue out e).2 = none ∧
    (shutdown out e).2 = none ∧
    (start dwArgc argv (.codedFailure c) e).1.log.length = e.log.length + 1 ∧
    (start dwArgc argv .otherFailure e).1.log.length = e.log.length + 1 ∧
    (stop (.codedFailure c) e).1.log.length = e.log.length + 1 ∧
    (stop .otherFailure e).1.log.length = e.log.length + 1 ∧
    (pause (.codedFailure c) e).1.log.length = e.log.length + 1 ∧
    (pause .otherFailure e).1.log.length = e.log.length + 1 ∧
    (_continue (.codedFailure c) e).1.log.length = e.log.length + 1 ∧
    (_continue .otherFailure e).1.log.length = e.log.length + 1 ∧
    (shutdown (.codedFailure c) e).1.log.length = e.log.length + 1 ∧
    (shutdown .otherFailure e).1.log.length = e.log.length + 1 := by
  cases out <;>
    simp [start, startBody, stop, stopBody, pause, pauseBody, _continue, continueBody,
      shutdown, shutdownBody, invokeCallback, setServiceStatus, writeErrorLogEntry,
      writeEventLogEntry]

/-- C4: a failing `onStart` callback always makes the final report of
`start` carry state `SERVICE_STOPPED`; a structured failure's code becomes
the exit code, an unstructured failure leaves the exit code at `NO_ERROR`. -/
theorem C4_start_failure_reports_stopped (e : SvcEnv) (c dwArgc : Nat)
    (argv : List String) :
    ((start dwArgc argv (.codedFailure c) e).1.reports.getLast?).map
        (fun r => (r.dwCurrentState, r.dwWin32ExitCode)) = some (SERVICE_STOPPED, c) ∧
    ((start dwArgc argv .otherFailure e).1.reports.getLast?).map
        (fun r => (r.dwCurrentState, r.dwWin32ExitCode)) = some (SERVICE_STOPPED, NO_ERROR) := by
  refine ⟨?_, ?_⟩ <;>
    simp [start, startBody, invokeCallback, setServiceStatus, writeErrorLogEntry,
      writeEventLogEntry, getLast?_snoc]

/-- C9: the structured-failure rollback reports of Stop, Pause and Continue
leave the exit code at `NO_ERROR` (the declaration's default), never the
callback's error code. -/
theorem C9_rollback_keeps_exit_code (e : SvcEnv) (c : Nat) :
    lastReportedExitCode (stop (.codedFailure c) e).1 = some NO_ERROR ∧
    lastReportedExitCode (pause (.codedFailure c) e).1 = some NO_ERROR ∧
    lastReportedExitCode (_continue (.codedFailure c) e).1 = some NO_ERROR := by
  refine ⟨?_, ?_, ?_⟩ <;>
    simp [stop, stopBody, pause, pauseBody, _continue, continueBody, invokeCallback,
      setServiceStatus, writeErrorLogEntry, writeEventLogEntry, lastReportedExitCode,
      getLast?_snoc]

/-- C2 (counterexample): in the scenario Start(success), Pause(success),
Continue(structured failure 5), the report issued for the Paused state
(index 3 of the observed reports) does not carry the baseline checkpoint 0:
it carries the incremented value 3, because `setServiceStatus` resets the
checkpoint only for `SERVICE_RUNNING` and `SERVICE_STOPPED`, not for
`SERVICE_PAUSED`. -/
theorem C2_paused_checkpoint_not_baseline :
    (scenarioEnv.reports[3]?).map (fun r => r.dwCurrentState) = some SERVICE_PAUSED ∧
    (scenarioEnv.reports[3]?).map (fun r => r.dwCheckPoint) ≠ some 0 ∧
    (scenarioEnv.reports[3]?).map (fun r => r.dwCheckPoint) = some 3 := by
  decide

/-- C2 (amended): the reported checkpoint resets to the baseline 0 exactly
on reports whose state is `SERVICE_RUNNING` or `SERVICE_STOPPED`; a Paused
report carries the incremented counter.  In the scenario Start(success),
Pause(success), Continue(structured failure 5) the observed states are
[StartPending, Running, PausePending, Paused, ContinuePending, Paused] with
checkpoints [1, 0, 2, 3, 4, 5]: the reset happens at the Running report
only, and both Paused reports carry incremented values. -/
theorem C2_amended_checkpoint_reset (e : SvcEnv) (ec wh : Nat) :
    lastReportedCheckPoint (setServiceStatus e SERVICE_RUNNING ec wh) = some 0 ∧
    lastReportedCheckPoint (setServiceStatus e SERVICE_STOPPED ec wh) = some 0 ∧
    lastReportedCheckPoint (setServiceStatus e SERVICE_PAUSED ec wh) =
      some e.dwCheckPointStatic ∧
    scenarioEnv.reports.map (fun r => r.dwCurrentState) =
      [SERVICE_START_PENDING, SERVICE_RUNNING, SERVICE_PAUSE_PENDING, SERVICE_PAUSED,
       SERVICE_CONTINUE_PENDING, SERVICE_PAUSED] ∧
    scenarioEnv.reports.map (fun r => r.dwCheckPoint) = [1, 0, 2, 3, 4, 5] := by
  refine ⟨?_, ?_, ?_, by decide, by decide⟩ <;>
    simp [setServiceStatus, lastReportedCheckPoint, getLast?_snoc, SERVICE_RUNNING,
      SERVICE_STOPPED, SERVICE_PAUSED]

/-- C5 (counterexample): delivering `SERVICE_CONTROL_INTERROGATE` to the
control handler leaves the current state unchanged but does not re-send any
status report: on the scenario state (6 reports issued) the handler returns
with still exactly 6 reports, not 7. -/
theorem C5_interrogate_sends_no_report :
    (ServiceCtrlHandler SERVICE_CONTROL_INTERROGATE CallbackOutcome.ok scenarioEnv).1.svc.status_.dwCurrentState
      = scenarioEnv.svc.status_.dwCurrentState ∧
    (ServiceCtrlHandler SERVICE_CONTROL_INTERROGATE CallbackOutcome.ok scenarioEnv).1.reports.length = 6 ∧
    scenarioEnv.reports.length = 6 ∧
    ¬ (ServiceCtrlHandler SERVICE_CONTROL_INTERROGATE CallbackOutcome.ok scenarioEnv).1.reports.length
      = scenarioEnv.reports.length + 1 := by
  decide

/-- C5 (amended): an Interrogate control request is a complete no-op: the
handler leaves the whole process state (current state, reports, log,
callback invocations) unchanged and returns normally; in particular no
status report is re-sent. -/
theorem C5_amended_interrogate_noop (out : CallbackOutcome) (e : SvcEnv) :
    ServiceCtrlHandler SERVICE_CONTROL_INTERROGATE out e = (e, none) := by
  rfl

/-- C6: Shutdown issues no pending report; `onShutdown` is invoked exactly
once; on success exactly one terminal `SERVICE_STOPPED` report is issued
with no log entry; on either failure kind the failure is only logged (one
event-log entry), no report of any kind is issued, and the callback is not
retried. -/
theorem C6_shutdown_no_pending_no_rollback (e : SvcEnv) (c : Nat) :
    (shutdown .ok e).1.reports.map (fun r => r.dwCurrentState) =
      e.reports.map (fun r => r.dwCurrentState) ++ [SERVICE_STOPPED] ∧
    (shutdown .ok e).1.calls = e.calls ++ ["onShutdown"] ∧
    (shutdown .ok e).1.log = e.log ∧
    (shutdown (.codedFailure c) e).1.reports = e.reports ∧
    (shutdown (.codedFailure c) e).1.calls = e.calls ++ ["onShutdown"] ∧
    (shutdown (.codedFailure c) e).1.log =
      e.log ++ [⟨e.svc.name_, errorLogMessage "Service Shutdown" c, EVENTLOG_ERROR_TYPE⟩] ∧
    (shutdown .otherFailure e).1.reports = e.reports ∧
    (shutdown .otherFailure e).1.calls = e.calls ++ ["onShutdown"] ∧
    (shutdown .otherFailure e).1.log =
      e.log ++ [⟨e.svc.name_, "Service failed to shut down.", EVENTLOG_ERROR_TYPE⟩] := by
  refine ⟨?_, ?_, ?_, ?_, ?_, ?_, ?_, ?_, ?_⟩ <;>
    simp [shutdown, shutdownBody, invokeCallback, setServiceStatus, writeErrorLogEntry,
      writeEventLogEntry]

/-- C10: immediately after construction the status is exactly: state
`SERVICE_START_PENDING`, own-process service type, exit code `NO_ERROR`,
service-specific exit code 0, checkpoint 0, wait hint 0, null status
handle; the accepted-controls mask is the union of the three accept flags
for whichever capability flags are true; and a null name is replaced by the
empty string. -/
theorem C10_constructor_initial_state (pszServiceName : Option String)
    (fCanStop fCanShutdown fCanPauseContinue : Bool) :
    (winService.construct pszServiceName fCanStop fCanShutdown fCanPauseContinue).status_.dwCurrentState = SERVICE_START_PENDING ∧
    (winService.construct pszServiceName fCanStop fCanShutdown fCanPauseContinue).status_.dwServiceType = SERVICE_WIN32_OWN_PROCESS ∧
    (winService.construct pszServiceName fCanStop fCanShutdown fCanPauseContinue).status_.dwWin32ExitCode = NO_ERROR ∧
    (winService.construct pszServiceName fCanStop fCanShutdown fCanPauseContinue).status_.dwServiceSpecificExitCode = 0 ∧
    (winService.construct pszServiceName fCanStop fCanShutdown fCanPauseContinue).status_.dwCheckPoint = 0 ∧
    (winService.construct pszServiceName fCanStop fCanShutdown fCanPauseContinue).status_.dwWaitHint = 0 ∧
    (winService.construct pszServiceName fCanStop fCanShutdown fCanPauseContinue).statusHandle_ = none ∧
    (winService.construct pszServiceName fCanStop fCanShutdown fCanPauseContinue).status_.dwControlsAccepted =
      ((if fCanStop then SERVICE_ACCEPT_STOP else 0) |||
       (if fCanShutdown then SERVICE_ACCEPT_SHUTDOWN else 0) |||
       (if fCanPauseContinue then SERVICE_ACCEPT_PAUSE_CONTINUE else 0)) ∧
    (winService.construct pszServiceName fCanStop fCanShutdown fCanPauseContinue).name_ =
      pszServiceName.getD "" := by
  cases pszServiceName <;> cases fCanStop <;> cases fCanShutdown <;> cases fCanPauseContinue <;>
    simp [winService.construct, SERVICE_ACCEPT_STOP, SERVICE_ACCEPT_SHUTDOWN,
      SERVICE_ACCEPT_PAUSE_CONTINUE, SERVICE_WIN32_OWN_PROCESS, SERVICE_START_PENDING,
      NO_ERROR, Option.getD]

/-- C8: any control code other than Stop, Pause, Continue, Shutdown and
Interrogate is silently ignored by the control handler: the process state
(hence the current `ServiceState` and the report sequence) is unchanged and
the handler returns normally. -/
theorem C8_unknown_control_noop (dwCtrl : Nat) (out : CallbackOutcome) (e : SvcEnv)
    (h1 : dwCtrl ≠ SERVICE_CONTROL_STOP) (h2 : dwCtrl ≠ SERVICE_CONTROL_PAUSE)
    (h3 : dwCtrl ≠ SERVICE_CONTROL_CONTINUE) (h4 : dwCtrl ≠ SERVICE_CONTROL_SHUTDOWN)
    (h5 : dwCtrl ≠ SERVICE_CONTROL_INTERROGATE) :
    ServiceCtrlHandler dwCtrl out e = (e, none) := by
  simp [ServiceCtrlHandler, h1, h2, h3, h4, h5]

/-- Witness for `C8_unknown_control_noop` at the user-defined control
code 128. -/
theorem C8_unknown_control_noop_witness :
    ((128 : Nat) ≠ SERVICE_CONTROL_STOP ∧ (128 : Nat) ≠ SERVICE_CONTROL_PAUSE ∧
     (128 : Nat) ≠ SERVICE_CONTROL_CONTINUE ∧ (128 : Nat) ≠ SERVICE_CONTROL_SHUTDOWN ∧
     (128 : Nat) ≠ SERVICE_CONTROL_INTERROGATE) ∧
    ServiceCtrlHandler 128 CallbackOutcome.ok (initEnv (some "wotan") true true true) =
      (initEnv (some "wotan") true true true, none) :=
  ⟨⟨by decide, by decide, by decide, by decide, by decide⟩,
   C8_unknown_control_noop 128 CallbackOutcome.ok (initEnv (some "wotan") true true true)
     (by decide) (by decide) (by decide) (by decide) (by decide)⟩

/-! ## The checkpoint protocol across arbitrary report sequences (C7) -/

/-- Arguments of one `setServiceStatus` call. -/
structure ReportCall where
  dwCurrentState : Nat
  dwWin32ExitCode : Nat
  dwWaitHint : Nat
deriving Repr, DecidableEq

/-- Run a sequence of `setServiceStatus` calls. -/
def runReports (e : SvcEnv) : List ReportCall → SvcEnv
  | [] => e
  | k :: ks => runReports (setServiceStatus e k.dwCurrentState k.dwWin32ExitCode k.dwWaitHint) ks

/-- The `SERVICE_STATUS` written and reported by one `setServiceStatus`
call, given the previous structure contents and the static counter. -/
def reportOf (st0 : SERVICE_STATUS) (c : Nat) (k : ReportCall) : SERVICE_STATUS :=
  { st0 with
    dwCurrentState := k.dwCurrentState
    dwWin32ExitCode := k.dwWin32ExitCode
    dwWaitHint := k.dwWaitHint
    dwCheckPoint :=
      if k.dwCurrentState = SERVICE_RUNNING ∨ k.dwCurrentState = SERVICE_STOPPED then 0
      else c }

/-- The static counter after one `setServiceStatus` call. -/
def nextCP (c : Nat) (k : ReportCall) : Nat :=
  if k.dwCurrentState = SERVICE_RUNNING ∨ k.dwCurrentState = SERVICE_STOPPED then c
  else (c + 1) % DWORD_MOD

/-- The reports a sequence of `setServiceStatus` calls appends, computed
forwards from the structure contents and the static counter. -/
def traceFrom (st0 : SERVICE_STATUS) (c : Nat) : List ReportCall → List SERVICE_STATUS
  | [] => []
  | k :: ks => reportOf st0 c k :: traceFrom (reportOf st0 c k) (nextCP c k) ks

theorem reportOf_dwCurrentState (st0 : SERVICE_STATUS) (c : Nat) (k : ReportCall) :
    (reportOf st0 c k).dwCurrentState = k.dwCurrentState := rfl

theorem reportOf_dwCheckPoint (st0 : SERVICE_STATUS) (c : Nat) (k : ReportCall) :
    (reportOf st0 c k).dwCheckPoint =
      if k.dwCurrentState = SERVICE_RUNNING ∨ k.dwCurrentState = SERVICE_STOPPED then 0
      else c := rfl

/-- Running a sequence of report calls only appends the forward trace to the report list. -/
theorem runReports_reports (ks : List ReportCall) : ∀ e : SvcEnv,
    (runReports e ks).reports = e.reports ++ traceFrom e.svc.status_ e.dwCheckPointStatic ks := by
  induction ks with
  | nil => intro e; simp [runReports, traceFrom]
  | cons k ks ih =>
    intro e
    rw [runReports, ih]
    simp [setServiceStatus, traceFrom, reportOf, nextCP]

/-- A `*Pending` state is neither `SERVICE_RUNNING` nor `SERVICE_STOPPED`. -/
theorem isPending_not_reset {s : Nat} (h : isPending s = true) :
    ¬ (s = SERVICE_RUNNING ∨ s = SERVICE_STOPPED) := by
  simp [isPending, SERVICE_START_PENDING, SERVICE_STOP_PENDING, SERVICE_CONTINUE_PENDING,
    SERVICE_PAUSE_PENDING] at h
  simp [SERVICE_RUNNING, SERVICE_STOPPED]
  omega

/-- Every report of the forward trace whose state is `SERVICE_RUNNING` or
`SERVICE_STOPPED` carries checkpoint 0. -/
theorem traceFrom_running_stopped_zero (ks : List ReportCall) :
    ∀ (st0 : SERVICE_STATUS) (c : Nat), ∀ r ∈ traceFrom st0 c ks,
      (r.dwCurrentState = SERVICE_RUNNING ∨ r.dwCurrentState = SERVICE_STOPPED) →
      r.dwCheckPoint = 0 := by
  induction ks with
  | nil => intro st0 c r hr; simp [traceFrom] at hr
  | cons k ks ih =>
    intro st0 c r hr hstate
    rw [traceFrom] at hr
    rcases List.mem_cons.mp hr with h | h
    · subst h
      rw [reportOf_dwCurrentState] at hstate
      rw [reportOf_dwCheckPoint]
      exact if_pos hstate
    · exact ih _ _ r h hstate

/-- Relation between two consecutive reports demanded by the spec: if both
carry a `*Pending` state, the checkpoint strictly increases. -/
def ckptIncreasing (r₁ r₂ : SERVICE_STATUS) : Prop :=
  isPending r₁.dwCurrentState = true → isPending r₂.dwCurrentState = true →
  r₁.dwCheckPoint < r₂.dwCheckPoint

/-- Along the forward trace, the checkpoint strictly increases between
consecutive pending reports, as long as the static counter cannot wrap
around its 32 bits. -/
theorem traceFrom_chain (ks : List ReportCall) :
    ∀ (st0 : SERVICE_STATUS) (c : Nat), c + ks.length < DWORD_MOD →
      List.Chain' ckptIncreasing (traceFrom st0 c ks) := by
  induction ks with
  | nil => intro st0 c _; simp [traceFrom]
  | cons k ks ih =>
    intro st0 c hc
    rw [traceFrom]
    cases ks with
    | nil => simp [traceFrom]
    | cons k2 ks2 =>
      rw [traceFrom]
      refine List.chain'_cons.mpr ⟨?_, ?_⟩
      · intro hp1 hp2
        rw [reportOf_dwCurrentState] at hp1 hp2
        have hnr1 := isPending_not_reset hp1
        have hnr2 := isPending_not_reset hp2
        rw [reportOf_dwCheckPoint, reportOf_dwCheckPoint, if_neg hnr1, if_neg hnr2]
        have hcp : nextCP c k = (c + 1) % DWORD_MOD := if_neg hnr1
        have hlt : c + 1 < DWORD_MOD := by
          simp only [List.length_cons] at hc
          omega
        rw [hcp, Nat.mod_eq_of_lt hlt]
        omega
      · rw [← traceFrom]
        apply ih
        have hle : nextCP c k ≤ c + 1 := by
          rw [nextCP]
          split
          · omega
          · exact Nat.mod_le _ _
        simp only [List.length_cons] at hc ⊢
        omega

/-- C7: starting from a freshly constructed controller, across any sequence
of `setServiceStatus` calls that cannot wrap the 32-bit static counter, the
reported checkpoint strictly increases between consecutive reports whose
states are both `*Pending`, and every report whose state is
`SERVICE_RUNNING` or `SERVICE_STOPPED` carries the baseline checkpoint 0. -/
theorem C7_checkpoint_protocol (pszServiceName : Option String)
    (fCanStop fCanShutdown fCanPauseContinue : Bool) (ks : List ReportCall)
    (h : 1 + ks.length < DWORD_MOD) :
    List.Chain' ckptIncreasing
      (runReports (initEnv pszServiceName fCanStop fCanShutdown fCanPauseContinue) ks).reports ∧
    ∀ r ∈ (runReports (initEnv pszServiceName fCanStop fCanShutdown fCanPauseContinue) ks).reports,
      (r.dwCurrentState = SERVICE_RUNNING ∨ r.dwCurrentState = SERVICE_STOPPED) →
      r.dwCheckPoint = 0 := by
  rw [runReports_reports]
  constructor
  · exact traceFrom_chain ks _ _ h
  · intro r hr hstate
    exact traceFrom_running_stopped_zero ks _ _ r hr hstate

/-- Witness for `C7_checkpoint_protocol`: a two-call sequence. -/
theorem C7_checkpoint_protocol_witness :
    1 + ([⟨SERVICE_STOP_PENDING, 0, 0⟩, ⟨SERVICE_STOPPED, 0, 0⟩] : List ReportCall).length < DWORD_MOD ∧
    (List.Chain' ckptIncreasing
      (runReports (initEnv (some "wotan") true true true)
        [⟨SERVICE_STOP_PENDING, 0, 0⟩, ⟨SERVICE_STOPPED, 0, 0⟩]).reports ∧
    ∀ r ∈ (runReports (initEnv (some "wotan") true true true)
        [⟨SERVICE_STOP_PENDING, 0, 0⟩, ⟨SERVICE_STOPPED, 0, 0⟩]).reports,
      (r.dwCurrentState = SERVICE_RUNNING ∨ r.dwCurrentState = SERVICE_STOPPED) →
      r.dwCheckPoint = 0) :=
  ⟨by decide,
   C7_checkpoint_protocol (some "wotan") true true true
     [⟨SERVICE_STOP_PENDING, 0, 0⟩, ⟨SERVICE_STOPPED, 0, 0⟩] (by decide)⟩
